import Mathlib

/-!
Verification of the filter-and-aggregate pipeline of `streamlit_app.py`
(younj1/FinalProject).

The script loads an insurance-cost table, applies user-selected filters
(region set, smoker checkboxes, BMI range, age range), derives categorical
columns with `pd.cut`, and computes aggregates (group-by mean, Pearson
correlation matrix).  We embed each of those operations as pure Lean
functions over an explicit record type: pandas float columns become `Rat`,
integer columns `Int`, string columns `String`.  A pandas boolean-mask
selection `df[mask]` is `List.filter`; assignments in the straight-line
script become explicit state passing.
-/

/-- One row of the merged insurance table: the columns of `insurance.csv`
plus the two columns copied in from the healthcare table (lines 24-26). -/
structure Record where
  age : Int
  sex : String
  bmi : Rat
  children : Int
  smoker : String
  region : String
  charges : Rat
  health_condition : String
  education : String
deriving DecidableEq, Repr

/-- The sidebar filter inputs (lines 32-41): the multiselect of regions, the
two smoker checkboxes, and the two closed-interval range sliders.  The BMI
slider endpoints are integers in the script but compare against the float
`bmi` column, so we carry them as `Rat`. -/
structure FilterCriteria where
  selected_region : List String
  include_smokers : Bool
  include_nonsmokers : Bool
  bmi_lo : Rat
  bmi_hi : Rat
  age_lo : Int
  age_hi : Int
deriving DecidableEq, Repr

/-- Embeds lines 44-60 of the script.  Returns the final `filtered_data`
together with a flag recording whether the `st.warning` on line 49 fired.
The conflict branch (both checkboxes ticked) issues the warning, reassigns
`include_smokers = False`, and — being the taken branch of the
`if`/`elif` chain — applies no smoker predicate at all. -/
def applyFilters (c : FilterCriteria) (data : List Record) : List Record × Bool :=
  let fd := data.filter (fun r => c.selected_region.contains r.region)
  let step :=
    if c.include_smokers && c.include_nonsmokers then
      (fd, true)
    else if c.include_smokers then
      (fd.filter (fun r => r.smoker == "yes"), false)
    else if c.include_nonsmokers then
      (fd.filter (fun r => r.smoker == "no"), false)
    else
      (fd, false)
  let fd2 := step.1.filter (fun r => decide (c.bmi_lo ≤ r.bmi) && decide (r.bmi ≤ c.bmi_hi))
  let fd3 := fd2.filter (fun r => decide (c.age_lo ≤ r.age) && decide (r.age ≤ c.age_hi))
  (fd3, step.2)

/-- The filtered view produced by lines 44-60. -/
def filtered_data (c : FilterCriteria) (data : List Record) : List Record :=
  (applyFilters c data).1

/-- Whether the conflicting-criteria warning of line 49 was emitted. -/
def conflictSignal (c : FilterCriteria) (data : List Record) : Bool :=
  (applyFilters c data).2

/-- The effective smoker-mode predicate: in the conflict case and in the
default case no smoker restriction applies ("All"); otherwise the ticked
checkbox selects the matching rows. -/
def smokerPred (c : FilterCriteria) (r : Record) : Bool :=
  if c.include_smokers && c.include_nonsmokers then true
  else if c.include_smokers then r.smoker == "yes"
  else if c.include_nonsmokers then r.smoker == "no"
  else true

/-- The conjunction of all active predicates of the criteria, as the spec
states them: region membership, the smoker-mode predicate, and the two
closed-interval range predicates. -/
def activePred (c : FilterCriteria) (r : Record) : Bool :=
  c.selected_region.contains r.region &&
  smokerPred c r &&
  (decide (c.bmi_lo ≤ r.bmi) && decide (r.bmi ≤ c.bmi_hi)) &&
  (decide (c.age_lo ≤ r.age) && decide (r.age ≤ c.age_hi))

lemma filter_filter_bool (p q : Record → Bool) (l : List Record) :
    (l.filter p).filter q = l.filter (fun r => p r && q r) := by
  induction l with
  | nil => rfl
  | cons a l ih =>
    by_cases hp : p a <;> by_cases hq : q a <;>
      simp [List.filter_cons, hp, hq, ih]

/-- The filter pipeline is exactly `List.filter` of the conjunction of the
active predicates. -/
lemma filtered_data_eq_filter (c : FilterCriteria) (d : List Record) :
    filtered_data c d = d.filter (activePred c) := by
  unfold filtered_data applyFilters activePred smokerPred
  by_cases hs : c.include_smokers <;> by_cases hn : c.include_nonsmokers <;>
    simp [hs, hn, filter_filter_bool, Bool.and_assoc] <;>
    · apply List.filter_congr
      intro r _
      simp [Bool.and_comm, Bool.and_left_comm, Bool.and_assoc]

/-- C1: `applyFilters` returns precisely the rows of the dataset satisfying
the conjunction of the active predicates (region ∈ set, smoker-mode
predicate, bmi ∈ [lo,hi], age ∈ [lo,hi]); hence no row is fabricated, every
returned row satisfies every active predicate, and when nothing matches the
result is the empty list, not an error. -/
theorem applyFilters_rows_characterized (c : FilterCriteria) (d : List Record) :
    filtered_data c d = d.filter (activePred c) ∧
    ∀ r ∈ filtered_data c d, r ∈ d ∧ activePred c r = true := by
  refine ⟨filtered_data_eq_filter c d, ?_⟩
  intro r hr
  rw [filtered_data_eq_filter] at hr
  exact ⟨List.mem_of_mem_filter hr, List.of_mem_filter hr⟩

/-- A sample row used to instantiate theorems with hypotheses. -/
def sampleRec : Record :=
  { age := 19, sex := "female", bmi := 27, children := 0, smoker := "yes",
    region := "southwest", charges := 16884, health_condition := "Healthy",
    education := "College" }

/-- A second sample row (a non-smoker in another region). -/
def sampleRec2 : Record :=
  { age := 45, sex := "male", bmi := 22, children := 2, smoker := "no",
    region := "northeast", charges := 8000, health_condition := "Diabetes",
    education := "High School" }

/-- A sample dataset. -/
def sampleData : List Record := [sampleRec, sampleRec2]

/-- Sample criteria keeping both sample rows. -/
def sampleCrit : FilterCriteria :=
  { selected_region := ["southwest", "northeast"], include_smokers := false,
    include_nonsmokers := false, bmi_lo := 18, bmi_hi := 30, age_lo := 18,
    age_hi := 60 }

theorem applyFilters_rows_characterized_witness :
    sampleRec ∈ sampleData ∧ activePred sampleCrit sampleRec = true :=
  (applyFilters_rows_characterized sampleCrit sampleData).2 sampleRec (by decide)

/-- C6: the filtered view is a sublist of the dataset — the surviving rows
appear in their original relative order. -/
theorem applyFilters_sublist (c : FilterCriteria) (d : List Record) :
    List.Sublist (filtered_data c d) d := by
  rw [filtered_data_eq_filter]
  exact List.filter_sublist d

/-- C7: applying the same criteria to an already-filtered view changes
nothing. -/
theorem applyFilters_idempotent (c : FilterCriteria) (d : List Record) :
    filtered_data c (filtered_data c d) = filtered_data c d := by
  rw [filtered_data_eq_filter, filtered_data_eq_filter, filter_filter_bool]
  apply List.filter_congr
  intro r _
  exact Bool.and_self (activePred c r)

/-- The criteria with smoker mode "All": both checkboxes cleared. -/
def allSmokerMode (c : FilterCriteria) : FilterCriteria :=
  { c with include_smokers := false, include_nonsmokers := false }

/-- C3: when both smoker checkboxes are ticked, the conflict branch fires
the warning and — being the taken branch of the `if`/`elif` chain — applies
no smoker predicate, so the resulting view equals the smoker-mode-"All"
view (region, BMI and age predicates still apply); the pipeline stays a
total function, so no exception aborts the session. -/
theorem conflict_falls_back_to_all (c : FilterCriteria) (d : List Record)
    (hs : c.include_smokers = true) (hn : c.include_nonsmokers = true) :
    filtered_data c d = filtered_data (allSmokerMode c) d ∧
    conflictSignal c d = true := by
  unfold filtered_data conflictSignal applyFilters allSmokerMode
  simp [hs, hn]

/-- Criteria with both smoker checkboxes ticked. -/
def conflictCrit : FilterCriteria :=
  { sampleCrit with include_smokers := true, include_nonsmokers := true }

theorem conflict_falls_back_to_all_witness :
    filtered_data conflictCrit sampleData =
      filtered_data (allSmokerMode conflictCrit) sampleData ∧
    conflictSignal conflictCrit sampleData = true :=
  conflict_falls_back_to_all conflictCrit sampleData rfl rfl

/-- The script state around the filter pass: the source frame `data`
(line 24) and the view `filtered_data` rebound by each selection. -/
structure SessionState where
  data : List Record
  filtered_data : List Record
deriving DecidableEq, Repr

/-- Embeds lines 44-60 as explicit state passing: every pandas boolean-mask
selection constructs a new frame which is rebound to the name
`filtered_data`; the name `data` is never assigned. -/
def runFilterPass (c : FilterCriteria) (s : SessionState) : SessionState :=
  let s1 : SessionState :=
    { s with filtered_data := s.data.filter (fun r => c.selected_region.contains r.region) }
  let s2 : SessionState :=
    if c.include_smokers && c.include_nonsmokers then s1
    else if c.include_smokers then
      { s1 with filtered_data := s1.filtered_data.filter (fun r => r.smoker == "yes") }
    else if c.include_nonsmokers then
      { s1 with filtered_data := s1.filtered_data.filter (fun r => r.smoker == "no") }
    else s1
  let s3 : SessionState :=
    { s2 with filtered_data :=
        s2.filtered_data.filter (fun r => decide (c.bmi_lo ≤ r.bmi) && decide (r.bmi ≤ c.bmi_hi)) }
  { s3 with filtered_data :=
      s3.filtered_data.filter (fun r => decide (c.age_lo ≤ r.age) && decide (r.age ≤ c.age_hi)) }

/-- C10: for every criteria — conflicting ones included — the filter pass
leaves the source dataset untouched and binds `filtered_data` to a freshly
computed view of it. -/
theorem filter_pass_preserves_source (c : FilterCriteria) (s : SessionState) :
    (runFilterPass c s).data = s.data ∧
    (runFilterPass c s).filtered_data = filtered_data c s.data := by
  unfold runFilterPass filtered_data applyFilters
  by_cases hs : c.include_smokers <;> by_cases hn : c.include_nonsmokers <;>
    simp [hs, hn]

/-- The labels of the BMI `pd.cut` on lines 181-185. -/
inductive BMICategory
  | Underweight
  | Normal
  | Overweight
  | Obese
deriving DecidableEq, Repr

/-- Embeds `pd.cut(bmi, bins=[0, 18.5, 24.9, 29.9, 100], labels=...)`
(lines 181-185).  `pd.cut` uses right-closed bins, so the intervals are
`(0, 18.5]`, `(18.5, 24.9]`, `(24.9, 29.9]`, `(29.9, 100]`; a value outside
every bin gets NaN, modelled as `none`.  The decimal edges 18.5, 24.9 and
29.9 are written as the exact rationals `mkRat 185 10` etc. -/
def bmiCategory (x : Rat) : Option BMICategory :=
  if 0 < x ∧ x ≤ mkRat 185 10 then some BMICategory.Underweight
  else if mkRat 185 10 < x ∧ x ≤ mkRat 249 10 then some BMICategory.Normal
  else if mkRat 249 10 < x ∧ x ≤ mkRat 299 10 then some BMICategory.Overweight
  else if mkRat 299 10 < x ∧ x ≤ 100 then some BMICategory.Obese
  else none

/-- The labels of the age `pd.cut` on lines 227-231. -/
inductive AgeGroup
  | YoungAdults
  | MiddleAged
  | OlderAdults
  | Seniors
deriving DecidableEq, Repr

/-- Embeds `pd.cut(age, bins=[18, 35, 50, 65, 100], labels=...)`
(lines 227-231): right-closed bins `(18, 35]`, `(35, 50]`, `(50, 65]`,
`(65, 100]`; a value outside every bin (age 18 included) gets NaN. -/
def ageGroup (a : Int) : Option AgeGroup :=
  if 18 < a ∧ a ≤ 35 then some AgeGroup.YoungAdults
  else if 35 < a ∧ a ≤ 50 then some AgeGroup.MiddleAged
  else if 50 < a ∧ a ≤ 65 then some AgeGroup.OlderAdults
  else if 65 < a ∧ a ≤ 100 then some AgeGroup.Seniors
  else none

/-- The derived "BMI Category" column of line 181. -/
def bmiCategoryColumn (d : List Record) : List (Option BMICategory) :=
  d.map (fun r => bmiCategory r.bmi)

/-- The derived "Age Group" column of line 227. -/
def ageGroupColumn (d : List Record) : List (Option AgeGroup) :=
  d.map (fun r => ageGroup r.age)

/-- A record whose bmi is exactly 18.5. -/
def recBMIBoundary : Record :=
  { sampleRec with bmi := mkRat 185 10 }

/-- C2 counterexample: the bins are right-closed, so bmi exactly 18.5 lies
in `(0, 18.5]` and classifies as Underweight, refuting the claimed
Normal. -/
theorem bmi_boundary_is_underweight :
    bmiCategoryColumn [recBMIBoundary] = [some BMICategory.Underweight] ∧
    bmiCategory (mkRat 185 10) ≠ some BMICategory.Normal := by
  constructor <;> decide

/-- C2 amended: bmi exactly 18.5 classifies as Underweight (upper edge of
the right-closed bin `(0, 18.5]`); bmi 24.9 as Normal; bmi 29.9 as
Overweight; age 35 as Young Adults; age 65 as Older Adults. -/
theorem bin_boundary_tiebreaks :
    bmiCategory (mkRat 185 10) = some BMICategory.Underweight ∧
    bmiCategory (mkRat 249 10) = some BMICategory.Normal ∧
    bmiCategory (mkRat 299 10) = some BMICategory.Overweight ∧
    ageGroup 35 = some AgeGroup.YoungAdults ∧
    ageGroup 65 = some AgeGroup.OlderAdults := by
  refine ⟨?_, ?_, ?_, ?_, ?_⟩ <;> decide

/-- A record with age exactly 18 (a valid age per the data model). -/
def recAge18 : Record :=
  { sampleRec with age := 18 }

/-- C5 counterexample: the `pd.cut` bins exclude the left edge 18 and cap
at 100, so a record with age 18 gets no age group at all, bmi 150 gets no
BMI category (Obese is not unbounded above), and bmi exactly 29.9 is
Overweight, not Obese. -/
theorem bins_boundary_exclusion_counterexample :
    ageGroupColumn [recAge18] = [none] ∧
    bmiCategory 150 = none ∧
    bmiCategory (mkRat 299 10) ≠ some BMICategory.Obese := by
  refine ⟨?_, ?_, ?_⟩ <;> decide

lemma mkRat_edge185 : mkRat 185 10 = 185/10 := by
  rw [Rat.mkRat_eq_divInt, Rat.divInt_eq_div]
  norm_num

lemma mkRat_edge249 : mkRat 249 10 = 249/10 := by
  rw [Rat.mkRat_eq_divInt, Rat.divInt_eq_div]
  norm_num

lemma mkRat_edge299 : mkRat 299 10 = 299/10 := by
  rw [Rat.mkRat_eq_divInt, Rat.divInt_eq_div]
  norm_num

lemma bmiCategory_isSome_iff (x : Rat) :
    (bmiCategory x).isSome = true ↔ 0 < x ∧ x ≤ 100 := by
  unfold bmiCategory
  rw [mkRat_edge185, mkRat_edge249, mkRat_edge299]
  split_ifs with h1 h2 h3 h4
  · obtain ⟨a, b⟩ := h1
    simp only [Option.isSome_some, true_iff]
    exact ⟨a, by linarith⟩
  · obtain ⟨a, b⟩ := h2
    simp only [Option.isSome_some, true_iff]
    exact ⟨by linarith, by linarith⟩
  · obtain ⟨a, b⟩ := h3
    simp only [Option.isSome_some, true_iff]
    exact ⟨by linarith, by linarith⟩
  · obtain ⟨a, b⟩ := h4
    simp only [Option.isSome_some, true_iff]
    exact ⟨by linarith, b⟩
  · push_neg at h1 h2 h3 h4
    simp only [Option.isSome_none, Bool.false_eq_true, false_iff, not_and, not_le]
    intro hx0
    exact h4 (h3 (h2 (h1 hx0)))

lemma bmiCategory_obese_iff (x : Rat) :
    bmiCategory x = some BMICategory.Obese ↔ 299/10 < x ∧ x ≤ 100 := by
  unfold bmiCategory
  rw [mkRat_edge185, mkRat_edge249, mkRat_edge299]
  split_ifs with h1 h2 h3 h4
  · obtain ⟨a, b⟩ := h1
    simp only [Option.some_inj, false_iff, not_and, not_le, reduceCtorEq]
    intro hlt
    linarith
  · obtain ⟨a, b⟩ := h2
    simp only [Option.some_inj, false_iff, not_and, not_le, reduceCtorEq]
    intro hlt
    linarith
  · obtain ⟨a, b⟩ := h3
    simp only [Option.some_inj, false_iff, not_and, not_le, reduceCtorEq]
    intro hlt
    linarith
  · simp only [Option.some_inj, true_iff]
    exact h4
  · push_neg at h1 h2 h3 h4
    simp only [false_iff, not_and, not_le, reduceCtorEq]
    exact h4

lemma ageGroup_isSome_iff (a : Int) :
    (ageGroup a).isSome = true ↔ 18 < a ∧ a ≤ 100 := by
  unfold ageGroup
  split_ifs with h1 h2 h3 h4 <;>
    simp only [Option.isSome_some, Option.isSome_none, Bool.false_eq_true,
      true_iff, false_iff, not_and, not_le] <;>
    omega

lemma ageGroup_young_iff (a : Int) :
    ageGroup a = some AgeGroup.YoungAdults ↔ 18 < a ∧ a ≤ 35 := by
  unfold ageGroup
  split_ifs with h1 h2 h3 h4 <;>
    simp only [Option.some_inj, true_iff, false_iff, not_and, not_le, reduceCtorEq] <;>
    omega

/-- C5 amended: `bmiCategory` and `ageGroup` are pure, total Lean functions
returning an optional category; a record is assigned a (then unique) BMI
category exactly when 0 < bmi ≤ 100 and an age group exactly when
18 < age ≤ 100; Obese covers the right-closed bin (29.9, 100], not all
bmi ≥ 29.9, and Young Adults covers (18, 35], excluding age 18. -/
theorem bins_capped_domain (x : Rat) (a : Int) :
    ((bmiCategory x).isSome = true ↔ 0 < x ∧ x ≤ 100) ∧
    (bmiCategory x = some BMICategory.Obese ↔ 299/10 < x ∧ x ≤ 100) ∧
    ((ageGroup a).isSome = true ↔ 18 < a ∧ a ≤ 100) ∧
    (ageGroup a = some AgeGroup.YoungAdults ↔ 18 < a ∧ a ≤ 35) :=
  ⟨bmiCategory_isSome_iff x, bmiCategory_obese_iff x,
    ageGroup_isSome_iff a, ageGroup_young_iff a⟩

/-- The key columns of the group-by on line 213. -/
def groupKey (r : Record) : Int × String :=
  (r.children, r.smoker)

/-- First-occurrence deduplication of the observed group keys. -/
def dedupKeys : List (Int × String) → List (Int × String)
  | [] => []
  | k :: ks => k :: (dedupKeys ks).filter (fun x => decide (x ≠ k))

lemma mem_dedupKeys (k : Int × String) (l : List (Int × String)) :
    k ∈ dedupKeys l ↔ k ∈ l := by
  induction l with
  | nil => simp [dedupKeys]
  | cons a l ih =>
    simp only [dedupKeys, List.mem_cons, List.mem_filter, ih, decide_eq_true_eq]
    by_cases hk : k = a
    · simp [hk]
    · simp [hk]

/-- The rows of one (children, smoker) group. -/
def groupRows (d : List Record) (k : Int × String) : List Record :=
  d.filter (fun r => decide (groupKey r = k))

/-- The mean of the charges column of a list of rows. -/
def meanCharges (rows : List Record) : Rat :=
  (rows.map Record.charges).sum / (rows.length : Rat)

/-- Embeds line 213,
`groupby(["children", "smoker"])["charges"].mean().reset_index()`: one row
per observed (children, smoker) combination, carrying the mean of the
charges in that group.  pandas lists the keys sorted; our list keeps them
in first-occurrence order, which the claims (stated through membership)
do not depend on. -/
def grouped_data (d : List Record) : List ((Int × String) × Rat) :=
  (dedupKeys (d.map groupKey)).map (fun k => (k, meanCharges (groupRows d k)))

/-- The spec's aggregation scenario: charges 100, 200, 300 for smoker=no
and 400 for smoker=yes, children 0 throughout. -/
def scenarioData : List Record :=
  [ { sampleRec with children := 0, smoker := "no", charges := 100 },
    { sampleRec with children := 0, smoker := "no", charges := 200 },
    { sampleRec with children := 0, smoker := "no", charges := 300 },
    { sampleRec with children := 0, smoker := "yes", charges := 400 } ]

/-- C8: the group-by aggregates exactly the observed (children, smoker)
combinations — a key appears in the output iff some row of the view carries
it, so empty groups are omitted, not zero-filled — and on the spec's
scenario it yields mean 200 for (0, no) and 400 for (0, yes) and nothing
else. -/
theorem grouped_data_observed_keys :
    (∀ (d : List Record) (k : Int × String),
      k ∈ (grouped_data d).map Prod.fst ↔ k ∈ d.map groupKey) ∧
    grouped_data scenarioData = [((0, "no"), 200), ((0, "yes"), 400)] := by
  constructor
  · intro d k
    simp [grouped_data, List.map_map, Function.comp, mem_dedupKeys]
  · with_unfolding_all rfl

/-- Mean of a numeric column. -/
def colMean (xs : List Rat) : Rat :=
  xs.sum / (xs.length : Rat)

/-- Sum of squared deviations from the column mean. -/
def sqDevSum (xs : List Rat) : Rat :=
  (xs.map (fun x => (x - colMean xs) * (x - colMean xs))).sum

/-- Sum of products of deviations of two columns. -/
def covSum (xs ys : List Rat) : Rat :=
  ((xs.zip ys).map (fun p => (p.1 - colMean xs) * (p.2 - colMean ys))).sum

/-- One entry of the Pearson correlation matrix, with the square root kept
symbolic: `none` models the NaN pandas produces when either column has
zero squared deviation (fewer than two rows, or a constant column);
otherwise `some (c, vx, vy)` holds the covariance sum and the two
squared-deviation sums, from which r = c / sqrt (vx * vy). -/
def corrEntry (xs ys : List Rat) : Option (Rat × Rat × Rat) :=
  if sqDevSum xs = 0 ∨ sqDevSum ys = 0 then none
  else some (covSum xs ys, sqDevSum xs, sqDevSum ys)

/-- The numeric (float64/int64) columns selected on line 133: age, bmi,
children, charges. -/
def numericColumns (d : List Record) : List (List Rat) :=
  [ d.map (fun r => (r.age : Rat)),
    d.map Record.bmi,
    d.map (fun r => (r.children : Rat)),
    d.map Record.charges ]

/-- Embeds line 133: `select_dtypes(include=["float64", "int64"]).corr()`
is computed unconditionally on whatever view is current; there is no guard
and no error channel around it (the only `try` in the script wraps the
heatmap rendering, not this computation). -/
def correlation_matrix (d : List Record) : List (List (Option (Rat × Rat × Rat))) :=
  (numericColumns d).map (fun xs => (numericColumns d).map (fun ys => corrEntry xs ys))

/-- Whether a correlation matrix contains a NaN entry. -/
def matrixHasNaN (m : List (List (Option (Rat × Rat × Rat)))) : Bool :=
  m.any (fun row => row.any (fun e => e.isNone))

/-- C4 counterexample: on a one-row view the code computes and returns the
4×4 correlation matrix with every entry NaN — there is no
ComputationUnavailable signal anywhere on this path. -/
theorem one_row_corr_is_nan_matrix :
    correlation_matrix [sampleRec] = List.replicate 4 (List.replicate 4 none) ∧
    matrixHasNaN (correlation_matrix [sampleRec]) = true := by
  constructor <;> with_unfolding_all rfl

lemma sqDevSum_singleton (x : Rat) : sqDevSum [x] = 0 := by
  simp [sqDevSum, colMean]

/-- C4 amended: the correlation matrix is computed unconditionally and no
signal exists; every view with fewer than two rows yields a matrix
containing NaN entries, and so does a view with a constant numeric column
(the scenario data, whose children column is constantly 0). -/
theorem corr_degenerate_yields_nan :
    (∀ d : List Record, d.length < 2 → matrixHasNaN (correlation_matrix d) = true) ∧
    matrixHasNaN (correlation_matrix scenarioData) = true := by
  constructor
  · intro d h
    rcases d with _ | ⟨r, _ | ⟨s, t⟩⟩
    · with_unfolding_all rfl
    · simp [matrixHasNaN, correlation_matrix, numericColumns, corrEntry,
        sqDevSum_singleton]
    · simp only [List.length_cons] at h
      omega
  · with_unfolding_all rfl

theorem corr_degenerate_yields_nan_witness :
    [sampleRec].length < 2 ∧ matrixHasNaN (correlation_matrix [sampleRec]) = true :=
  ⟨by decide, corr_degenerate_yields_nan.1 [sampleRec] (by decide)⟩

/-- A raw loaded frame, before any typing: named columns in order, each a
list of cell strings. -/
structure Table where
  columns : List (String × List String)
deriving DecidableEq, Repr

/-- The column names of a frame. -/
def Table.colNames (t : Table) : List String :=
  t.columns.map Prod.fst

/-- Column read `t[c]`: `some` cells when the column exists; `none` models
the KeyError pandas raises when it is absent — absence is an error
outcome, not an empty column. -/
def Table.getCol? (t : Table) (c : String) : Option (List String) :=
  (t.columns.find? (fun p => p.1 == c)).map Prod.snd

/-- Column assignment `t[c] = v` with pandas semantics: replace the column
in place when present, else append it on the right. -/
def Table.setCol (t : Table) (c : String) (v : List String) : Table :=
  if t.colNames.contains c then
    ⟨t.columns.map (fun p => if p.1 == c then (c, v) else p)⟩
  else
    ⟨t.columns ++ [(c, v)]⟩

/-- Embeds lines 11-17: `load_data` returns the two frames exactly as
`pd.read_csv` produced them; the body contains no conditional, no schema
check and no raise. -/
def load_data (df1 df2 : Table) : Table × Table :=
  (df1, df2)

/-- Embeds lines 24-26: `data2["health_condition"]` and
`data2["education"]` are column reads on the second frame — each raises a
KeyError (`none`) when its column is missing — and their results are
assigned onto a copy of the first frame.  Nothing on this path inspects
the first frame's columns. -/
def mergeFrames (df1 df2 : Table) : Option Table := do
  let hc ← df2.getCol? "health_condition"
  let ed ← df2.getCol? "education"
  pure ((df1.setCol "health_condition" hc).setCol "education" ed)

/-- The columns the spec requires every loaded dataset to have. -/
def requiredCols : List String :=
  ["age", "sex", "bmi", "children", "smoker", "region", "charges"]

/-- Whether a frame carries every required column. -/
def hasRequiredColumns (t : Table) : Bool :=
  requiredCols.all (fun c => t.colNames.contains c)

/-- A frame missing `age` (and most other required columns). -/
def tableMissingAge : Table :=
  ⟨[("sex", ["male"]), ("bmi", ["27"])]⟩

/-- A second frame shaped like the repository's healthcare dataset: it
carries the two columns the merge copies. -/
def healthTable : Table :=
  ⟨[("health_condition", ["Healthy"]), ("education", ["College"])]⟩

/-- C9 counterexample: an insurance frame missing the required `age`
column is rejected nowhere on the load path — `load_data` returns it as
read and the merge completes normally, producing a frame still missing
`age`; no SchemaError is ever signaled.  When instead the *second* frame
lacks the copied columns, the script raises a KeyError (`none`), an
unrecoverable exception, not a SchemaError signal either. -/
theorem load_accepts_missing_column :
    hasRequiredColumns tableMissingAge = false ∧
    load_data tableMissingAge healthTable = (tableMissingAge, healthTable) ∧
    mergeFrames tableMissingAge healthTable =
      some ⟨[("sex", ["male"]), ("bmi", ["27"]),
        ("health_condition", ["Healthy"]), ("education", ["College"])]⟩ ∧
    hasRequiredColumns
      ⟨[("sex", ["male"]), ("bmi", ["27"]),
        ("health_condition", ["Healthy"]), ("education", ["College"])]⟩ = false ∧
    mergeFrames tableMissingAge tableMissingAge = none := by
  refine ⟨?_, ?_, ?_, ?_, ?_⟩ <;> decide

lemma mem_colNames_setCol (t : Table) (c : String) (v : List String) (x : String) :
    x ∈ (t.setCol c v).colNames ↔ x ∈ t.colNames ∨ x = c := by
  unfold Table.setCol
  split
  case isTrue h =>
    have hc : c ∈ t.colNames := by
      have := List.elem_iff.mp h
      exact this
    have hmap : (Table.mk (t.columns.map (fun p => if p.1 == c then (c, v) else p))).colNames
        = t.colNames := by
      unfold Table.colNames
      simp only [List.map_map]
      apply List.map_congr_left
      intro p _
      by_cases hp : p.1 = c
      · simp [Function.comp, hp]
      · simp [Function.comp, hp]
    rw [hmap]
    constructor
    · exact Or.inl
    · rintro (hx | rfl)
      · exact hx
      · exact hc
  case isFalse h =>
    unfold Table.colNames
    simp

lemma setCol_copied_keeps_missing (t : Table) (v w : List String) (c : String)
    (hc : c ∈ requiredCols) (hn : c ∉ t.colNames) :
    c ∉ ((t.setCol "health_condition" v).setCol "education" w).colNames := by
  have hne1 : c ≠ "health_condition" := by
    simp only [requiredCols, List.mem_cons, List.not_mem_nil, or_false] at hc
    rcases hc with rfl | rfl | rfl | rfl | rfl | rfl | rfl <;> decide
  have hne2 : c ≠ "education" := by
    simp only [requiredCols, List.mem_cons, List.not_mem_nil, or_false] at hc
    rcases hc with rfl | rfl | rfl | rfl | rfl | rfl | rfl <;> decide
  rw [mem_colNames_setCol, mem_colNames_setCol]
  push_neg
  exact ⟨⟨hn, hne1⟩, hne2⟩

/-- C9 amended: the load path performs no schema validation — `load_data`
returns the frames exactly as read, and the merge reads only the two
copied columns of the second frame, never inspecting the first frame's
schema: whenever the second frame carries `health_condition` and
`education`, the merge completes on any first frame whatsoever, and a
first frame missing a required column comes out still missing it.  A
missing column is never answered with a SchemaError signal — the only
failure on the path is the KeyError on the second frame's column reads. -/
theorem load_no_schema_validation (t u : Table)
    (h : hasRequiredColumns t = false)
    (hhc : (u.getCol? "health_condition").isSome = true)
    (hed : (u.getCol? "education").isSome = true) :
    load_data t u = (t, u) ∧
    ∃ m, mergeFrames t u = some m ∧ hasRequiredColumns m = false := by
  refine ⟨rfl, ?_⟩
  obtain ⟨hc, hhceq⟩ := Option.isSome_iff_exists.mp hhc
  obtain ⟨ed, hedeq⟩ := Option.isSome_iff_exists.mp hed
  refine ⟨(t.setCol "health_condition" hc).setCol "education" ed, ?_, ?_⟩
  · unfold mergeFrames
    rw [hhceq, hedeq]
    rfl
  · unfold hasRequiredColumns at h ⊢
    rw [List.all_eq_false] at h ⊢
    obtain ⟨c, hcmem, hnc⟩ := h
    refine ⟨c, hcmem, ?_⟩
    intro hmem
    apply setCol_copied_keeps_missing t hc ed c hcmem
    · intro habs
      exact hnc (List.elem_iff.mpr habs)
    · exact List.elem_iff.mp hmem

theorem load_no_schema_validation_witness :
    hasRequiredColumns tableMissingAge = false ∧
    load_data tableMissingAge healthTable = (tableMissingAge, healthTable) ∧
    ∃ m, mergeFrames tableMissingAge healthTable = some m ∧
      hasRequiredColumns m = false := by
  have h : hasRequiredColumns tableMissingAge = false := by decide
  have hhc : (healthTable.getCol? "health_condition").isSome = true := by decide
  have hed : (healthTable.getCol? "education").isSome = true := by decide
  exact ⟨h, (load_no_schema_validation tableMissingAge healthTable h hhc hed).1,
    (load_no_schema_validation tableMissingAge healthTable h hhc hed).2⟩
